import Mathlib

/-!
Shallow embedding of the python3-ptouch repository (files
src/ptouch/connection.py, src/ptouch/label.py, src/ptouch/__main__.py)
and proofs about the behaviour its specification claims.

Modelling conventions:
- Python exceptions become the inductive `PyError`; a method that can raise
  returns an `Except PyError` result together with the mutated object state.
- OS-level nondeterminism (socket failures, USB stack behaviour) is passed
  in as an explicit outcome/environment argument; the embedding then follows
  the python control flow deterministically.
- Python float values that only flow into messages or pixel arithmetic are
  modelled as rationals; no claim depends on binary floating point rounding.
-/

/-- Low-level causes stored in `PrinterConnectionError.original_error`. -/
inductive OriginalError where
  | sockTimeout
  | connRefused
  | gaiError
  | brokenPipe
  | connReset
  | osError (code : Int)
  | usbError (ecode : Option Int)
  deriving DecidableEq, Repr

/-- Python exceptions that the modelled code can raise. `uncaught` is a
low-level library exception propagating through the ptouch code unwrapped. -/
inductive PyError where
  | printerConnectionError (message : String) (original_error : Option OriginalError)
  | attributeError (message : String)
  | notImplementedError (message : String)
  | runtimeError (message : String)
  | typeError (message : String)
  | assertionError
  | uncaught (e : OriginalError)
  deriving DecidableEq, Repr

/-- Discriminator: is this exception a `PrinterConnectionError`? -/
def PyError.isPrinterConnectionError : PyError → Bool
  | .printerConnectionError _ _ => true
  | _ => false

/-! ## Network connection (`ConnectionNetwork`, connection.py lines 191-327) -/

/-- OS world tracking which sockets are currently open. `socket.socket()`
allocates `nextSock`; `sock.close()` removes the handle from `openSocks`. -/
structure NetWorld where
  nextSock : Nat
  openSocks : List Nat
  deriving DecidableEq, Repr

/-- Failure modes of `socket.connect`, in the order of the except clauses. -/
inductive SockFail where
  | timeout
  | refused
  | gai
  | os (code : Int)
  deriving DecidableEq, Repr

/-- The `original_error` each `socket.connect` failure is wrapped with. -/
def SockFail.orig : SockFail → OriginalError
  | .timeout => .sockTimeout
  | .refused => .connRefused
  | .gai => .gaiError
  | .os code => .osError code

/-- Failure modes of `socket.sendall` / `socket.recv` on a live socket. -/
inductive SockIOFail where
  | timeout
  | brokenPipe
  | connReset
  | os (code : Int)
  deriving DecidableEq, Repr

/-- State of a `ConnectionNetwork` object: `sock` models `self._socket`
(`some handle` when a socket object is held, `none` when it is `None`).
The timeout is a rational number of seconds (python stores a float). -/
structure ConnectionNetwork where
  sock : Option Nat
  host : String
  port : Nat
  timeout : ℚ
  deriving DecidableEq, Repr

/-- `ConnectionNetwork.__init__(host, port=9100, timeout=5.0)`. -/
def ConnectionNetwork.init (host : String) (port : Nat) (timeout : ℚ) :
    ConnectionNetwork :=
  { sock := none, host := host, port := port, timeout := timeout }

/-- Address string `{host}:{port}` used in the network error messages. -/
def ConnectionNetwork.addr (c : ConnectionNetwork) : String :=
  c.host ++ ":" ++ toString c.port

/-- `ConnectionNetwork.connect`: allocates a socket, stores it in
`self._socket`, then attempts `socket.connect`; on each failure closes the
socket, resets `self._socket` to `None` and raises a
`PrinterConnectionError` wrapping the cause. `outcome = none` is success. -/
def ConnectionNetwork.connect (c : ConnectionNetwork) (w : NetWorld)
    (outcome : Option SockFail) :
    Except PyError Unit × ConnectionNetwork × NetWorld :=
  let s := w.nextSock
  let w1 : NetWorld := { nextSock := w.nextSock + 1, openSocks := s :: w.openSocks }
  let c1 : ConnectionNetwork := { c with sock := some s }
  match outcome with
  | none => (.ok (), c1, w1)
  | some f =>
      let w2 : NetWorld := { w1 with openSocks := w1.openSocks.erase s }
      let c2 : ConnectionNetwork := { c1 with sock := none }
      let msg : String :=
        match f with
        | .timeout =>
            "Connection to printer at " ++ c.addr ++ " timed out after "
              ++ toString c.timeout ++ "s"
        | .refused =>
            "Connection refused by printer at " ++ c.addr
              ++ ". Check if the printer is powered on and accepts network connections."
        | .gai =>
            "Cannot resolve hostname " ++ c.host
              ++ ". Check if the hostname or IP address is correct."
        | .os _ =>
            "Failed to connect to printer at " ++ c.addr
      (.error (.printerConnectionError msg (some f.orig)), c2, w2)

/-- `ConnectionNetwork.write`: raises `PrinterConnectionError` when
`self._socket is None`, otherwise `sendall` with every failure wrapped as a
`PrinterConnectionError`. The object state is not mutated. -/
def ConnectionNetwork.write (c : ConnectionNetwork) (_payload : List Nat)
    (outcome : Option SockIOFail) : Except PyError Unit :=
  match c.sock with
  | none => .error (.printerConnectionError "Not connected to printer" none)
  | some _ =>
      match outcome with
      | none => .ok ()
      | some .timeout =>
          .error (.printerConnectionError
            ("Write to printer at " ++ c.addr ++ " timed out") (some .sockTimeout))
      | some .brokenPipe =>
          .error (.printerConnectionError
            ("Connection to printer at " ++ c.addr ++ " was lost") (some .brokenPipe))
      | some .connReset =>
          .error (.printerConnectionError
            ("Connection to printer at " ++ c.addr ++ " was lost") (some .connReset))
      | some (.os code) =>
          .error (.printerConnectionError
            ("Failed to write to printer at " ++ c.addr) (some (.osError code)))

/-- `ConnectionNetwork.read`: raises `PrinterConnectionError` when
`self._socket is None`, otherwise `recv(num_bytes)` returning at most
`num_bytes` bytes, with every failure wrapped as `PrinterConnectionError`. -/
def ConnectionNetwork.read (c : ConnectionNetwork) (num_bytes : Nat)
    (outcome : Except SockIOFail (List Nat)) : Except PyError (List Nat) :=
  match c.sock with
  | none => .error (.printerConnectionError "Not connected to printer" none)
  | some _ =>
      match outcome with
      | .ok data => .ok (data.take num_bytes)
      | .error .timeout =>
          .error (.printerConnectionError
            ("Read from printer at " ++ c.addr ++ " timed out") (some .sockTimeout))
      | .error .brokenPipe =>
          .error (.printerConnectionError
            ("Connection to printer at " ++ c.addr ++ " was lost") (some .brokenPipe))
      | .error .connReset =>
          .error (.printerConnectionError
            ("Connection to printer at " ++ c.addr ++ " was lost") (some .connReset))
      | .error (.os code) =>
          .error (.printerConnectionError
            ("Failed to read from printer at " ++ c.addr) (some (.osError code)))

/-- `ConnectionNetwork.close`: closes and forgets the socket when one is
held, does nothing otherwise; the body has no raising call. -/
def ConnectionNetwork.close (c : ConnectionNetwork) (w : NetWorld) :
    Except PyError Unit × ConnectionNetwork × NetWorld :=
  match c.sock with
  | none => (.ok (), c, w)
  | some s =>
      (.ok (), { c with sock := none }, { w with openSocks := w.openSocks.erase s })

/-! ## USB connection (`ConnectionUSB`, connection.py lines 92-188) -/

/-- Environment describing the USB stack behaviour during `connect` and
`close`. `detachError`/`setConfigError`/`getActiveConfigError` hold
`some errno?` when the corresponding pyusb call raises `usb.core.USBError`
with that (optional) errno. -/
structure USBEnv where
  findResult : Bool
  kernelDriverActive : Bool
  detachError : Option (Option Int)
  setConfigError : Option (Option Int)
  getActiveConfigError : Option (Option Int)
  class7Interface : Bool
  epInPresent : Bool
  epOutPresent : Bool
  deriving DecidableEq, Repr

/-- State of a `ConnectionUSB` object: `self._device`, `self._ep_in`,
`self._ep_out` (`some handle` when set), `self._kernel_driver_detached`. -/
structure ConnectionUSB where
  device : Option Nat
  ep_in : Option Nat
  ep_out : Option Nat
  kernel_driver_detached : Bool
  deriving DecidableEq, Repr

/-- `ConnectionUSB.__init__()`. -/
def ConnectionUSB.init : ConnectionUSB :=
  { device := none, ep_in := none, ep_out := none, kernel_driver_detached := false }

/-- Uppercase hex digit of `n % 16`. -/
def hexDigit (n : Nat) : String :=
  ["0", "1", "2", "3", "4", "5", "6", "7", "8", "9",
   "A", "B", "C", "D", "E", "F"].getD (n % 16) "0"

/-- Python `f"{n:04X}"` for a product id below 2^16. -/
def hex4 (n : Nat) : String :=
  hexDigit (n / 4096) ++ hexDigit (n / 256) ++ hexDigit (n / 16) ++ hexDigit n

/-- `errno.EACCES` on Linux. -/
def EACCES : Int := 13

/-- Deterministic rendering of `str(e)` for a modelled `usb.core.USBError`,
used only inside wrapped error messages. -/
def usbErrorStr (ecode : Option Int) : String :=
  match ecode with
  | none => "USB error"
  | some c => "USB error errno " ++ toString c

/-- `ConnectionUSB.connect(printer)`: `productId` is
`getattr(printer, "USB_PRODUCT_ID", None)`. Follows connection.py lines
110-173: missing product id and missing device raise
`PrinterConnectionError`; `USBError` from detach/set_configuration is
wrapped (with a permission message when errno is EACCES); a `USBError`
from `get_active_configuration` propagates unwrapped; a configuration
without an interface of class 7 fails the bare `assert`; missing bulk
endpoints raise `PrinterConnectionError`. -/
def ConnectionUSB.connect (c : ConnectionUSB) (productId : Option Nat)
    (env : USBEnv) : Except PyError Unit × ConnectionUSB :=
  match productId with
  | none =>
      (.error (.printerConnectionError
        ("Printer class does not define USB_PRODUCT_ID. "
          ++ "USB connection requires a printer class with USB_PRODUCT_ID attribute.")
        none), c)
  | some pid =>
      if env.findResult = false then
        (.error (.printerConnectionError
          ("USB printer with product ID 0x" ++ hex4 pid ++ " not found. "
            ++ "Check if the printer is connected and powered on.") none),
         { c with device := none })
      else
        let c1 : ConnectionUSB := { c with device := some 0 }
        -- try block: detach_kernel_driver (recording the detach), then
        -- set_configuration; except usb.core.USBError wraps the error.
        let tryResult : Except (Option Int) ConnectionUSB :=
          if env.kernelDriverActive then
            match env.detachError with
            | some e => .error e
            | none =>
                let c2 := { c1 with kernel_driver_detached := true }
                match env.setConfigError with
                | some e => .error e
                | none => .ok c2
          else
            match env.setConfigError with
            | some e => .error e
            | none => .ok c1
        match tryResult with
        | .error e =>
            let cAfter : ConnectionUSB :=
              if env.kernelDriverActive ∧ env.detachError = none then
                { c1 with kernel_driver_detached := true }
              else c1
            if e = some EACCES then
              (.error (.printerConnectionError
                ("Permission denied accessing USB printer. "
                  ++ "Try running with sudo or configure udev rules.")
                (some (.usbError e))), cAfter)
            else
              (.error (.printerConnectionError
                ("Failed to initialize USB printer: " ++ usbErrorStr e)
                (some (.usbError e))), cAfter)
        | .ok c2 =>
            match env.getActiveConfigError with
            | some e => (.error (.uncaught (.usbError e)), c2)
            | none =>
                if env.class7Interface = false then
                  (.error .assertionError, c2)
                else
                  let c3 : ConnectionUSB :=
                    { c2 with
                      ep_in := if env.epInPresent then some 1 else none,
                      ep_out := if env.epOutPresent then some 2 else none }
                  if c3.ep_in = none ∨ c3.ep_out = none then
                    (.error (.printerConnectionError
                      ("USB endpoints not found. "
                        ++ "The device may not be a supported printer.") none), c3)
                  else
                    (.ok (), c3)

/-- `ConnectionUSB.write(payload)` is `self._ep_out.write(payload,
len(payload))`: with `self._ep_out` still `None` this is an
`AttributeError` on `None`, otherwise the endpoint write either succeeds
or raises a `usb.core.USBError` that propagates unwrapped. -/
def ConnectionUSB.write (c : ConnectionUSB) (_payload : List Nat)
    (writeError : Option (Option Int)) : Except PyError Unit :=
  match c.ep_out with
  | none => .error (.attributeError "NoneType object has no attribute write")
  | some _ =>
      match writeError with
      | none => .ok ()
      | some e => .error (.uncaught (.usbError e))

/-- `ConnectionUSB` does not override `Connection.read`, so reading goes to
the base class (connection.py lines 67-85) and always raises
`NotImplementedError`. -/
def ConnectionUSB.read (_c : ConnectionUSB) (_num_bytes : Nat) :
    Except PyError (List Nat) :=
  .error (.notImplementedError "This connection does not support reading")

/-- Observable actions of `ConnectionUSB.close`. -/
inductive USBAction where
  | disposeResources
  | attachKernelDriver
  deriving DecidableEq, Repr

/-- `ConnectionUSB.close()`: when a device is held, dispose its resources,
then reattach the kernel driver only if `self._kernel_driver_detached`,
ignoring any `usb.core.USBError` from the reattach; finally forget the
device. `attachRaises` says whether `attach_kernel_driver` would raise. -/
def ConnectionUSB.close (c : ConnectionUSB) (attachRaises : Bool) :
    Except PyError Unit × ConnectionUSB × List USBAction :=
  match c.device with
  | none => (.ok (), c, [])
  | some _ =>
      let actions :=
        if c.kernel_driver_detached then
          [USBAction.disposeResources, USBAction.attachKernelDriver]
        else
          [USBAction.disposeResources]
      -- the try/except swallows a USBError from attach_kernel_driver,
      -- so attachRaises does not change the result
      let _ := attachRaises
      (.ok (), { c with device := none }, actions)

/-! ## Labels (`TextLabel`, label.py lines 55-193) -/

/-- Python `int(q)` on a rational: truncation toward zero. -/
def pyTrunc (q : ℚ) : Int :=
  if 0 ≤ q then ⌊q⌋ else -⌊-q⌋

/-- The `font` constructor argument: a path string or a pre-loaded
`ImageFont.FreeTypeFont` (identified by a handle, its size baked in). -/
inductive PtFontArg where
  | path (p : String)
  | freeType (handle : Nat)
  deriving DecidableEq, Repr

/-- A font object as used for drawing: `ImageFont.truetype(path, size)` or
a pre-loaded font. -/
inductive LoadedFont where
  | truetype (path : String) (size : Int)
  | preloaded (handle : Nat)
  deriving DecidableEq, Repr

/-- Font metrics environment: `draw.textbbox((0, 0), text, font=font)`
returning `(x0, y0, x1, y1)`. -/
structure RenderEnv where
  textbbox : LoadedFont → String → Int × Int × Int × Int

/-- `TextLabel.Align` flag values (`enum.auto()` order), combined with
bitwise or; `CENTER = HCENTER | VCENTER`. -/
def Align.LEFT : Nat := 1
def Align.HCENTER : Nat := 2
def Align.RIGHT : Nat := 4
def Align.TOP : Nat := 8
def Align.VCENTER : Nat := 16
def Align.BOTTOM : Nat := 32
def Align.CENTER : Nat := Align.HCENTER ||| Align.VCENTER

/-- Python `x in flag` for `Flag` values: `flag & x == x`. -/
def alignHas (a x : Nat) : Bool :=
  a &&& x == x

/-- A PIL image as the modelled code observes it: mode, size, background
fill and the text draw calls applied to it. -/
structure PtImage where
  mode : String
  width : Int
  height : Int
  background : Nat × Nat × Nat
  texts : List (Int × Int × String × LoadedFont)
  deriving DecidableEq, Repr

/-- State of a `TextLabel`; `rendered` models `self._image`. -/
structure TextLabel where
  text : String
  tape : Nat
  font : PtFontArg
  font_size : Option Int
  align : Nat
  min_width_mm : Option ℚ
  rendered : Option PtImage
  deriving DecidableEq, Repr

/-- `TextLabel.__init__`: stores the arguments, defaults `align` to
`Align.CENTER`, leaves `self._image = None`. -/
def TextLabel.init (text : String) (tape : Nat) (font : PtFontArg)
    (font_size : Option Int) (align : Option Nat) (min_width_mm : Option ℚ) :
    TextLabel :=
  { text := text, tape := tape, font := font, font_size := font_size,
    align := align.getD Align.CENTER, min_width_mm := min_width_mm,
    rendered := none }

/-- The `TextLabel.image` property: raises `RuntimeError` when the label
has not been rendered, otherwise returns the rendered image. -/
def TextLabel.image (l : TextLabel) : Except PyError PtImage :=
  match l.rendered with
  | none =>
      .error (.runtimeError
        ("TextLabel has not been rendered yet. "
          ++ "Call prepare(height) or let the printer handle it."))
  | some img => .ok img

/-- `TextLabel.prepare(height, resolution_dpi=180)` (label.py lines
133-189): returns immediately when already rendered, otherwise loads the
font (default size `int(height * 0.8)`), measures the text, builds a white
RGB image of the requested height (width from the text plus padding 10 on
both sides, at least `int(min_width_mm * resolution_dpi / 25.4)` when a
minimum width is set), draws the text at the aligned position and stores
the image. Python floor division `// 2` is `Int.fdiv`. -/
def TextLabel.prepare (l : TextLabel) (env : RenderEnv) (height : Int)
    (resolution_dpi : Int) : TextLabel :=
  match l.rendered with
  | some _ => l
  | none =>
      let font : LoadedFont :=
        match l.font with
        | .path p =>
            let size := l.font_size.getD (pyTrunc ((height : ℚ) * (4 / 5)))
            .truetype p size
        | .freeType h => .preloaded h
      let bbox := env.textbbox font l.text
      let text_width := bbox.2.2.1 - bbox.1
      let padding : Int := 10
      let widthFromText := text_width + 2 * padding
      let image_width :=
        match l.min_width_mm with
        | none => widthFromText
        | some mm =>
            max widthFromText (pyTrunc (mm * (resolution_dpi : ℚ) / (127 / 5)))
      let text_x :=
        if alignHas l.align Align.LEFT then padding - bbox.1
        else if alignHas l.align Align.RIGHT then image_width - padding - bbox.2.2.1
        else Int.fdiv (image_width - bbox.1 - bbox.2.2.1) 2
      let text_y :=
        if alignHas l.align Align.TOP then -bbox.2.1
        else if alignHas l.align Align.BOTTOM then height - bbox.2.2.2
        else Int.fdiv (height - bbox.2.1 - bbox.2.2.2) 2
      let image : PtImage :=
        { mode := "RGB", width := image_width, height := height,
          background := (255, 255, 255),
          texts := [(text_x, text_y, l.text, font)] }
      { l with rendered := some image }

/-! ## CLI (`__main__.py`) -/

/-- Python `list * n`: `n` concatenated repetitions (empty for `n <= 0`). -/
def pyListMul {α : Type} (l : List α) (n : Int) : List α :=
  (List.replicate n.toNat l).flatten

/-- `__main__.py` lines 305-307: `if args.copies > 1: labels = labels *
args.copies`. -/
def applyCopies {α : Type} (labels : List α) (copies : Int) : List α :=
  if 1 < copies then pyListMul labels copies else labels

/-- Parameter names of `TextLabel.__init__` (label.py lines 74-82),
excluding `self`. -/
def textLabelInitParamNames : List String :=
  ["text", "tape", "font", "font_size", "align", "min_width_mm"]

/-- Keyword-argument names used by the `TextLabel(...)` call inside
`create_text_labels` (__main__.py lines 222-229). -/
def createTextLabelsKwargNames : List String :=
  ["font_path", "font_size", "align"]

/-- Python call binding: a keyword argument whose name is not a parameter
of the callee (which takes no `**kwargs`) raises `TypeError` before the
function body runs. -/
def pyBindKwargs (params kwargs : List String) : Except PyError Unit :=
  match kwargs.filter (fun k => !(params.contains k)) with
  | [] => .ok ()
  | k :: _ =>
      .error (.typeError
        ("TextLabel.__init__() got an unexpected keyword argument " ++ k))

/-- `create_text_labels(texts, tape_class, font_path, font_size, align)`
(__main__.py lines 195-231): one `TextLabel(text, tape_class,
font_path=..., font_size=..., align=...)` call per text. Each call binds
the keyword arguments against `TextLabel.__init__`; the result per text is
the constructed label or the binding error. -/
def create_text_labels (texts : List String) (tape : Nat) (font_path : String)
    (font_size : Option Int) (align : Nat) : Except PyError (List TextLabel) :=
  texts.mapM (fun text =>
    (pyBindKwargs textLabelInitParamNames createTextLabelsKwargNames).map
      (fun _ =>
        TextLabel.init text tape (.path font_path) font_size (some align) none))

/-! ## Claims -/

/-- Claim C1, counterexample: on the USB variant, `write` before `connect`
runs `self._ep_out.write(...)` with `self._ep_out` still `None`, raising an
`AttributeError`, not a `PrinterConnectionError` of kind NotConnected. -/
theorem claim1_usb_write_counterexample :
    ConnectionUSB.init.write [72] none =
      .error (.attributeError "NoneType object has no attribute write") ∧
    (PyError.attributeError "NoneType object has no attribute write").isPrinterConnectionError
      = false :=
  ⟨rfl, rfl⟩

/-- Claim C1, amended: on the network variant, `write` before `connect` and
`write` after any `close` fail with `PrinterConnectionError` (message `Not
connected to printer`); on the USB variant, `write` before `connect` raises
an `AttributeError` instead, and `close` does not clear `self._ep_out`, so
no NotConnected guard exists there either. -/
theorem claim1_write_not_connected_amended
    (host : String) (port : Nat) (t : ℚ) (p1 : List Nat) (o1 : Option SockIOFail)
    (c : ConnectionNetwork) (w : NetWorld) (p2 : List Nat) (o2 : Option SockIOFail)
    (p3 : List Nat) (we : Option (Option Int)) (u : ConnectionUSB) (a : Bool) :
    (ConnectionNetwork.init host port t).write p1 o1 =
      .error (.printerConnectionError "Not connected to printer" none) ∧
    ((c.close w).2.1).write p2 o2 =
      .error (.printerConnectionError "Not connected to printer" none) ∧
    ConnectionUSB.init.write p3 we =
      .error (.attributeError "NoneType object has no attribute write") ∧
    ((u.close a).2.1).ep_out = u.ep_out := by
  refine ⟨rfl, ?_, rfl, ?_⟩
  · cases hc : c.sock <;>
      simp [ConnectionNetwork.close, ConnectionNetwork.write, hc]
  · cases hu : u.device <;> simp [ConnectionUSB.close, hu]

/-- Claim C2: for both variants and every object state, `close` returns
without raising, and a second `close` after a first one is a no-op leaving
the object (and for the network variant the OS world) unchanged. -/
theorem claim2_close_idempotent
    (u : ConnectionUSB) (a a2 : Bool) (n : ConnectionNetwork) (w : NetWorld) :
    (u.close a).1 = .ok () ∧
    (n.close w).1 = .ok () ∧
    ((u.close a).2.1.close a2).1 = .ok () ∧
    ((u.close a).2.1.close a2).2.1 = (u.close a).2.1 ∧
    (((n.close w).2.1).close (n.close w).2.2).1 = .ok () ∧
    (((n.close w).2.1).close (n.close w).2.2).2.1 = (n.close w).2.1 ∧
    (((n.close w).2.1).close (n.close w).2.2).2.2 = (n.close w).2.2 := by
  cases hu : u.device <;> cases hn : n.sock <;>
    simp [ConnectionUSB.close, ConnectionNetwork.close, hu, hn]

/-- Claim C3, counterexample: the USB variant does not override
`Connection.read`, so `read` raises `NotImplementedError`, which is not a
`PrinterConnectionError`. -/
theorem claim3_usb_read_counterexample :
    ConnectionUSB.init.read 1024 =
      .error (.notImplementedError "This connection does not support reading") ∧
    (PyError.notImplementedError
        "This connection does not support reading").isPrinterConnectionError = false :=
  ⟨rfl, rfl⟩

/-- Claim C3, amended: on the network variant every failure of `read` is a
`PrinterConnectionError` (in particular reading while not connected); the
USB variant inherits the base-class `read`, which always raises
`NotImplementedError`. -/
theorem claim3_read_error_kinds_amended
    (c : ConnectionNetwork) (n : Nat) (o : Except SockIOFail (List Nat))
    (e : PyError) (u : ConnectionUSB) (m : Nat) :
    (c.read n o = .error e → e.isPrinterConnectionError = true) ∧
    u.read m =
      .error (.notImplementedError "This connection does not support reading") := by
  refine ⟨?_, rfl⟩
  intro h
  cases hc : c.sock with
  | none =>
      simp [ConnectionNetwork.read, hc] at h
      simp [← h, PyError.isPrinterConnectionError]
  | some s =>
      cases o with
      | ok data => simp [ConnectionNetwork.read, hc] at h
      | error f =>
          cases f <;> simp [ConnectionNetwork.read, hc] at h <;>
            simp [← h, PyError.isPrinterConnectionError]

/-- Claim C3 witness: the not-connected read failure is a
`PrinterConnectionError`. -/
theorem claim3_read_witness :
    (PyError.printerConnectionError "Not connected to printer"
        none).isPrinterConnectionError = true :=
  (claim3_read_error_kinds_amended (ConnectionNetwork.init "printer.local" 9100 5)
    32 (.ok []) _ ConnectionUSB.init 32).1 rfl

/-- Claim C4, counterexample: with a device present, a clean setup and an
active configuration carrying no interface of class 7,
`usb.util.find_descriptor(cfg, bInterfaceClass=7)` returns `None` and the
bare `assert intf is not None` fails with an `AssertionError`, so not every
failure of `ConnectionUSB.connect` is a `PrinterConnectionError`. -/
theorem claim4_usb_connect_assert_counterexample :
    (ConnectionUSB.init.connect (some 8289)
        { findResult := true, kernelDriverActive := false, detachError := none,
          setConfigError := none, getActiveConfigError := none,
          class7Interface := false, epInPresent := true,
          epOutPresent := true }).1 = .error .assertionError ∧
    PyError.assertionError.isPrinterConnectionError = false :=
  ⟨rfl, rfl⟩

/-- Claim C4, amended: `ConnectionUSB.connect` raises
`PrinterConnectionError` kinds NotFound (no matching device),
PermissionDenied (`USBError` with errno EACCES during setup) and
EndpointsMissing (a bulk endpoint absent); but not every failure is a
`PrinterConnectionError`: a configuration without a class-7 interface
fails the bare assert with `AssertionError`. -/
theorem claim4_usb_connect_error_kinds_amended (p : Nat) (env : USBEnv) :
    (env.findResult = false →
      (ConnectionUSB.init.connect (some p) env).1 =
        .error (.printerConnectionError
          ("USB printer with product ID 0x" ++ hex4 p ++ " not found. "
            ++ "Check if the printer is connected and powered on.") none)) ∧
    (env.findResult = true → env.detachError = none →
     env.setConfigError = some (some EACCES) →
      (ConnectionUSB.init.connect (some p) env).1 =
        .error (.printerConnectionError
          ("Permission denied accessing USB printer. "
            ++ "Try running with sudo or configure udev rules.")
          (some (.usbError (some EACCES))))) ∧
    (env.findResult = true → env.detachError = none → env.setConfigError = none →
     env.getActiveConfigError = none → env.class7Interface = true →
     env.epOutPresent = false →
      (ConnectionUSB.init.connect (some p) env).1 =
        .error (.printerConnectionError
          ("USB endpoints not found. "
            ++ "The device may not be a supported printer.") none)) ∧
    (env.findResult = true → env.detachError = none → env.setConfigError = none →
     env.getActiveConfigError = none → env.class7Interface = false →
      (ConnectionUSB.init.connect (some p) env).1 = .error .assertionError) := by
  refine ⟨?_, ?_, ?_, ?_⟩
  · intro h1
    simp [ConnectionUSB.connect, h1]
  · intro h1 h2 h3
    cases hk : env.kernelDriverActive <;>
      simp [ConnectionUSB.connect, h1, h2, h3, hk, EACCES]
  · intro h1 h2 h3 h4 h5 h6
    cases hk : env.kernelDriverActive <;> cases hi : env.epInPresent <;>
      simp [ConnectionUSB.connect, h1, h2, h3, h4, h5, h6, hk, hi]
  · intro h1 h2 h3 h4 h5
    cases hk : env.kernelDriverActive <;>
      simp [ConnectionUSB.connect, h1, h2, h3, h4, h5, hk]

/-- Claim C4 witness: the three `PrinterConnectionError` kinds at concrete
environments. -/
theorem claim4_usb_connect_witness :
    (ConnectionUSB.init.connect (some 8289)
        { findResult := false, kernelDriverActive := false, detachError := none,
          setConfigError := none, getActiveConfigError := none,
          class7Interface := true, epInPresent := true, epOutPresent := true }).1 =
      .error (.printerConnectionError
        ("USB printer with product ID 0x" ++ hex4 8289 ++ " not found. "
          ++ "Check if the printer is connected and powered on.") none) ∧
    (ConnectionUSB.init.connect (some 8289)
        { findResult := true, kernelDriverActive := false, detachError := none,
          setConfigError := some (some EACCES), getActiveConfigError := none,
          class7Interface := true, epInPresent := true, epOutPresent := true }).1 =
      .error (.printerConnectionError
        ("Permission denied accessing USB printer. "
          ++ "Try running with sudo or configure udev rules.")
        (some (.usbError (some EACCES)))) ∧
    (ConnectionUSB.init.connect (some 8289)
        { findResult := true, kernelDriverActive := false, detachError := none,
          setConfigError := none, getActiveConfigError := none,
          class7Interface := true, epInPresent := true, epOutPresent := false }).1 =
      .error (.printerConnectionError
        ("USB endpoints not found. "
          ++ "The device may not be a supported printer.") none) :=
  ⟨(claim4_usb_connect_error_kinds_amended 8289 _).1 rfl,
   (claim4_usb_connect_error_kinds_amended 8289 _).2.1 rfl rfl rfl,
   (claim4_usb_connect_error_kinds_amended 8289 _).2.2.1 rfl rfl rfl rfl rfl rfl⟩

/-- Claim C5: every failure mode of `ConnectionNetwork.connect` raises a
`PrinterConnectionError` wrapping the underlying cause in
`original_error`, and before the error propagates the freshly allocated
socket is closed again (the set of open OS sockets is restored) and
`self._socket` is back to `None`. -/
theorem claim5_network_connect_failure_atomic
    (c : ConnectionNetwork) (w : NetWorld) (f : SockFail) :
    (∃ msg, (c.connect w (some f)).1 =
      .error (.printerConnectionError msg (some f.orig))) ∧
    (c.connect w (some f)).2.1.sock = none ∧
    (c.connect w (some f)).2.2.openSocks = w.openSocks ∧
    (c.connect w (some f)).2.2.nextSock = w.nextSock + 1 := by
  cases f <;>
    exact ⟨⟨_, rfl⟩, rfl, by simp [ConnectionNetwork.connect], rfl⟩

/-- Claim C7: `ConnectionUSB.close` completes without raising even when the
kernel-driver reattach would fail, disposes the device resources exactly
when a device is held, attempts the reattach exactly when a device is held
and `self._kernel_driver_detached` is set, and `connect` sets that flag
exactly when a device was found, a kernel driver was active and the detach
call succeeded. -/
theorem claim7_close_reattach_iff_detached
    (u : ConnectionUSB) (a : Bool) (p : Nat) (env : USBEnv) :
    (u.close a).1 = .ok () ∧
    ((u.close a).2.2).contains USBAction.disposeResources = u.device.isSome ∧
    ((u.close a).2.2).contains USBAction.attachKernelDriver =
      (u.device.isSome && u.kernel_driver_detached) ∧
    (ConnectionUSB.init.connect (some p) env).2.kernel_driver_detached =
      (env.findResult && (env.kernelDriverActive && env.detachError == none)) := by
  refine ⟨?_, ?_, ?_, ?_⟩
  · cases hu : u.device <;> simp [ConnectionUSB.close, hu]
  · cases hu : u.device <;> cases hk : u.kernel_driver_detached <;>
      simp [ConnectionUSB.close, hu, hk]
  · cases hu : u.device <;> cases hk : u.kernel_driver_detached <;>
      simp [ConnectionUSB.close, hu, hk]
  · cases hf : env.findResult <;> cases hk : env.kernelDriverActive <;>
      rcases hd : env.detachError with _ | e <;>
      rcases hsc : env.setConfigError with _ | e2 <;>
      rcases hgc : env.getActiveConfigError with _ | e3 <;>
      cases h7 : env.class7Interface <;> cases hi : env.epInPresent <;>
      cases ho : env.epOutPresent <;>
      simp [ConnectionUSB.connect, ConnectionUSB.init, hf, hk, hd, hsc, hgc,
        h7, hi, ho, apply_ite, ite_self]

/-- Claim C6: `TextLabel.prepare` is idempotent. A second `prepare`, with
any arguments, returns the label unchanged (the early return on
`self._image is not None`), so the `image` property yields the same bitmap
as after the first call. -/
theorem claim6_prepare_idempotent
    (l : TextLabel) (env : RenderEnv) (h d : Int)
    (env2 : RenderEnv) (h2 d2 : Int) :
    (l.prepare env h d).prepare env2 h2 d2 = l.prepare env h d ∧
    ((l.prepare env h d).prepare env2 h2 d2).image = (l.prepare env h d).image := by
  have key : (l.prepare env h d).prepare env2 h2 d2 = l.prepare env h d := by
    cases hl : l.rendered with
    | some img => simp [TextLabel.prepare, hl]
    | none => simp [TextLabel.prepare, hl]
  exact ⟨key, by rw [key]⟩

/-- Helper: length of a flattened replication. -/
theorem length_replicate_flatten {α : Type} (n : Nat) (l : List α) :
    ((List.replicate n l).flatten).length = n * l.length := by
  induction n with
  | zero => simp
  | succ k ih => simp [List.replicate_succ, ih, Nat.succ_mul, Nat.add_comm]

/-- Claim C8: for a copies count of at least 1, the CLI builds the label
sequence by plain list repetition, producing exactly `copies * k` labels in
the original order repeated. -/
theorem claim8_copies_repeat {α : Type} (labels : List α) (copies : Int)
    (hc : 1 ≤ copies) :
    applyCopies labels copies = pyListMul labels copies ∧
    (applyCopies labels copies).length = copies.toNat * labels.length := by
  rcases lt_or_eq_of_le hc with hlt | heq
  · rw [applyCopies, if_pos hlt]
    exact ⟨rfl, length_replicate_flatten _ _⟩
  · rw [applyCopies, if_neg (by omega), ← heq]
    refine ⟨?_, by simp⟩
    simp [pyListMul]
  
/-- Claim C8 witness: three copies of a two-label list give six labels. -/
theorem claim8_copies_witness :
    applyCopies [10, 20] (3 : Int) = pyListMul [10, 20] 3 ∧
    (applyCopies [10, 20] (3 : Int)).length = 6 :=
  claim8_copies_repeat [10, 20] 3 (by decide)

/-- Claim C9: on a freshly constructed `TextLabel` the `image` property
raises `RuntimeError`; after `prepare(height, dpi)` the `image` property
returns a bitmap whose height is exactly the requested height. -/
theorem claim9_image_requires_prepare
    (text : String) (tape : Nat) (font : PtFontArg) (fs : Option Int)
    (al : Option Nat) (mw : Option ℚ) (env : RenderEnv) (h d : Int) :
    (TextLabel.init text tape font fs al mw).image =
      .error (.runtimeError
        ("TextLabel has not been rendered yet. "
          ++ "Call prepare(height) or let the printer handle it.")) ∧
    ∃ img, ((TextLabel.init text tape font fs al mw).prepare env h d).image =
      .ok img ∧ img.height = h :=
  ⟨rfl, ⟨_, rfl, rfl⟩⟩

/-- Claim C10: for every non-empty list of texts `create_text_labels`
raises a `TypeError`, because the `TextLabel(...)` call passes the keyword
argument `font_path` while `TextLabel.__init__` has no such parameter; no
label list is ever returned. -/
theorem claim10_create_text_labels_typeerror
    (texts : List String) (tape : Nat) (fp : String) (fs : Option Int)
    (al : Nat) (hne : texts ≠ []) :
    create_text_labels texts tape fp fs al =
      .error (.typeError
        ("TextLabel.__init__() got an unexpected keyword argument "
          ++ "font_path")) := by
  cases texts with
  | nil => exact absurd rfl hne
  | cons t ts => rfl

/-- Claim C10 witness: a single text already fails with the `TypeError`. -/
theorem claim10_create_text_labels_witness :
    create_text_labels ["Asset Tag"] 0 "font.ttf" none Align.CENTER =
      .error (.typeError
        ("TextLabel.__init__() got an unexpected keyword argument "
          ++ "font_path")) :=
  claim10_create_text_labels_typeerror ["Asset Tag"] 0 "font.ttf" none
    Align.CENTER (by simp)
